import Mathlib

/-!
Shallow embedding of the cloud-abstraction-layer MCP server's secure
command-execution gateway (src/utils/security.ts, src/utils/command-executor.ts),
its tool routers (src/tools/gcp-tools.ts, src/tools/azure-tools.ts) and the
dispatch seams of the two front-ends (src/index.ts, src/http-server.ts).

JavaScript strings are embedded as Lean `String`; the JavaScript string
operations used by the source (`trim`, `toLowerCase`, `startsWith`, `includes`,
`||` defaulting) are defined below as structurally recursive functions over the
character data so that every definition evaluates on concrete inputs.
External effects (child-process execution, cloud SDK calls, `JSON.parse`) are
supplied as oracle functions in an environment record, and each operation
additionally returns the trace of external calls it made, so that statements
such as "no process is spawned" are expressible.
-/

/-! ## JavaScript string and value primitives -/

/-- Substring search over character lists: `listContainsChar hay pat` is true
iff `pat` occurs contiguously in `hay` (the semantics of JS `hay.includes(pat)`). -/
def listContainsChar : List Char → List Char → Bool
  | [], pat => pat.isEmpty
  | h :: t, pat => pat.isPrefixOf (h :: t) || listContainsChar t pat

/-- JS `s.includes(pat)`. -/
def jsIncludes (s pat : String) : Bool := listContainsChar s.data pat.data

/-- JS `s.startsWith(pre)`. -/
def jsStartsWith (s pre : String) : Bool := pre.data.isPrefixOf s.data

/-- JS `s.trim()`: strip leading and trailing whitespace. -/
def jsTrim (s : String) : String :=
  String.mk (((s.data.dropWhile Char.isWhitespace).reverse.dropWhile Char.isWhitespace).reverse)

/-- JS `s.toLowerCase()` (per-character lowering, as the source only compares
ASCII command tokens). -/
def jsToLower (s : String) : String := String.mk (s.data.map Char.toLower)

/-- JS `a || b` where `a : string | undefined` (`undefined` and `""` are falsy). -/
def jsOrStr : Option String → String → String
  | some s, b => if s = "" then b else s
  | none, b => b

/-- JS `a || b` where `a : number | undefined` (`undefined` and `0` are falsy). -/
def jsOrInt : Option Int → Int → Int
  | some n, b => if n = 0 then b else n
  | none, b => b

/-- JS truthiness of a `string | undefined` value. -/
def jsTruthyOptStr : Option String → Bool
  | some s => !(s = "")
  | none => false

/-! ## SecurityValidator (src/utils/security.ts) -/

/-- Return shape of `validateGcpCommand` / `validateAzureCommand`:
`{ valid: boolean; reason?: string }`. -/
structure ValidationResult where
  valid : Bool
  reason : Option String
deriving Repr, DecidableEq

/-- `MAX_TIMEOUT_MS = 30000` (30 seconds). -/
def MAX_TIMEOUT_MS : Nat := 30000

/-- `MAX_BUFFER_SIZE = 10 * 1024 * 1024` (10MB). -/
def MAX_BUFFER_SIZE : Nat := 10 * 1024 * 1024

/-- `BLOCKED_GCP_COMMANDS`. -/
def BLOCKED_GCP_COMMANDS : List String := ["auth", "config", "init", "beta", "alpha"]

/-- `BLOCKED_AZURE_COMMANDS`. -/
def BLOCKED_AZURE_COMMANDS : List String := ["login", "account", "config"]

/-- `SecurityValidator.validateGcpCommand`.  The source first rejects empty or
whitespace-only input (`!command || command.trim().length === 0`), then scans
`BLOCKED_GCP_COMMANDS` for the first entry the trimmed, lowercased command
starts with, then rejects commands containing both `--format` and `eval`. -/
def validateGcpCommand (command : String) : ValidationResult :=
  if jsTrim command = "" then
    { valid := false, reason := some "Empty command" }
  else
    -- normalizedCommand = command.trim().toLowerCase()
    match BLOCKED_GCP_COMMANDS.find?
        (fun blocked => jsStartsWith (jsToLower (jsTrim command)) blocked) with
    | some blocked =>
      { valid := false,
        reason := some ("Command blocked: " ++ blocked ++
          " commands are not allowed for security reasons") }
    | none =>
      if jsIncludes (jsToLower (jsTrim command)) "--format" &&
          jsIncludes (jsToLower (jsTrim command)) "eval" then
        { valid := false, reason := some "Potentially dangerous format evaluation detected" }
      else
        { valid := true, reason := none }

/-- `SecurityValidator.validateAzureCommand`: empty check and denylist scan
only (no format/eval check). -/
def validateAzureCommand (command : String) : ValidationResult :=
  if jsTrim command = "" then
    { valid := false, reason := some "Empty command" }
  else
    match BLOCKED_AZURE_COMMANDS.find?
        (fun blocked => jsStartsWith (jsToLower (jsTrim command)) blocked) with
    | some blocked =>
      { valid := false,
        reason := some ("Command blocked: " ++ blocked ++
          " commands are not allowed for security reasons") }
    | none => { valid := true, reason := none }

/-! ## CommandExecutor (src/utils/command-executor.ts) -/

/-- `CommandResult`: the normalized result triple. -/
structure CommandResult where
  stdout : String
  stderr : String
  exitCode : Int
deriving Repr, DecidableEq

/-- The error value caught from a failed `execAsync` call: partial `stdout` and
`stderr` when the process produced any, the JS `Error` message, and the exit
code when the process reported one (`undefined` for spawn failures and
signal-killed/timed-out processes). -/
structure ExecError where
  stdout : Option String
  stderr : Option String
  message : String
  code : Option Int
deriving Repr, DecidableEq

/-- Outcome of running one external child process: `execAsync` either resolves
with `{stdout, stderr}` or rejects with an `ExecError`. -/
inductive ProcOutcome where
  | success (stdout stderr : String)
  | failure (e : ExecError)
deriving Repr, DecidableEq

/-- The `try`/`catch` normalization shared by both executor methods:
success gives `{stdout: stdout || '', stderr: stderr || '', exitCode: 0}`;
a caught error gives `{stdout: error.stdout || '', stderr: error.stderr ||
error.message || '', exitCode: error.code || 1}`. -/
def commandResultOfOutcome : ProcOutcome → CommandResult
  | .success out err =>
    { stdout := jsOrStr (some out) "", stderr := jsOrStr (some err) "", exitCode := 0 }
  | .failure e =>
    { stdout := jsOrStr e.stdout "",
      stderr := jsOrStr e.stderr (jsOrStr (some e.message) ""),
      exitCode := jsOrInt e.code 1 }

/-- The full invocation built by `executeGcpCommand`:
`` `gcloud ${command}` ``, replaced by `` `gcloud ${command} --project=${projectId}` ``
when `projectId` is truthy. -/
def gcpFullCommand (command : String) (projectId : Option String) : String :=
  match projectId with
  | some p => if p = "" then "gcloud " ++ command else "gcloud " ++ command ++ " --project=" ++ p
  | none => "gcloud " ++ command

/-- The full invocation built by `executeAzureCommand`:
`` `az ${command}` ``, replaced by `` `az ${command} --subscription ${subscriptionId}` ``
when `subscriptionId` is truthy. -/
def azureFullCommand (command : String) (subscriptionId : Option String) : String :=
  match subscriptionId with
  | some s => if s = "" then "az " ++ command else "az " ++ command ++ " --subscription " ++ s
  | none => "az " ++ command

/-- `CommandExecutor.executeGcpCommand`.  `proc` is the external child-process
oracle.  The second component is the list of invocation strings actually
spawned.  A failed validation throws (`Except.error`) without spawning;
otherwise the constructed invocation is run and the outcome is normalized,
never throwing on process failure. -/
def executeGcpCommand (proc : String → ProcOutcome) (command : String)
    (projectId : Option String) : Except String CommandResult × List String :=
  let validation := validateGcpCommand command
  if validation.valid then
    let fullCommand := gcpFullCommand command projectId
    (Except.ok (commandResultOfOutcome (proc fullCommand)), [fullCommand])
  else
    (Except.error (jsOrStr validation.reason "Command validation failed"), [])

/-- `CommandExecutor.executeAzureCommand` (same structure as the GCP variant). -/
def executeAzureCommand (proc : String → ProcOutcome) (command : String)
    (subscriptionId : Option String) : Except String CommandResult × List String :=
  let validation := validateAzureCommand command
  if validation.valid then
    let fullCommand := azureFullCommand command subscriptionId
    (Except.ok (commandResultOfOutcome (proc fullCommand)), [fullCommand])
  else
    (Except.error (jsOrStr validation.reason "Command validation failed"), [])

/-! ## Tool-layer data model -/

/-- A JavaScript argument value as used by the handlers: the tools only read
string arguments, numeric arguments, and the `labels` record of string pairs. -/
inductive JsValue where
  | str (s : String)
  | num (n : Int)
  | record (fields : List (String × String))
deriving Repr, DecidableEq

/-- `Record<string, unknown>`: the argument mapping of one tool invocation. -/
abbrev Args := List (String × JsValue)

/-- `args.key as string`: the string value when present (`undefined` otherwise). -/
def getStrArg (args : Args) (key : String) : Option String :=
  match args.lookup key with
  | some (JsValue.str s) => some s
  | _ => none

/-- `args.key as number`: the numeric value when present (`undefined` otherwise). -/
def getNumArg (args : Args) (key : String) : Option Int :=
  match args.lookup key with
  | some (JsValue.num n) => some n
  | _ => none

/-- `args.key as Record<string, string>`: the record value when present. -/
def getRecordArg (args : Args) (key : String) : Option (List (String × String)) :=
  match args.lookup key with
  | some (JsValue.record fields) => some fields
  | _ => none

/-- One `{ type: 'text', text }` content item. -/
structure ContentItem where
  type : String
  text : String
deriving Repr, DecidableEq

/-- The uniform response envelope returned by every handler:
`{ content: Array<{type, text}>, isError?: boolean }` (`none` models an
omitted `isError`). -/
structure ToolResponse where
  content : List ContentItem
  isError : Option Bool
deriving Repr, DecidableEq

/-- One GCS SDK call made by a GCP handler. -/
inductive StorageCall where
  | getBuckets
  | getFiles (bucket pfx : String) (maxResults : Int)
  | download (bucket object : String) (startByte endByte : Int)
  | getMetadata (bucket object : String)
deriving Repr, DecidableEq

/-- One Azure blob SDK call made by an Azure handler. -/
inductive AzureBlobCall where
  | listContainers (account : String)
  | listBlobsFlat (account container pfx : String)
  | download (account container blob : String) (maxBytes : Int)
  | getProperties (account container blob : String)
deriving Repr, DecidableEq

/-- An external call observable at the gateway boundary: a spawned child
process or a cloud SDK call. -/
inductive ExtEvent where
  | spawn (cmd : String)
  | gcs (c : StorageCall)
  | blob (c : AzureBlobCall)
deriving Repr, DecidableEq

/-- Bucket data selected by `handleListBuckets`. -/
structure BucketInfo where
  name : String
  location : String
  timeCreated : String
  updated : String
deriving Repr, DecidableEq

/-- Object data selected by `handleListObjects`. -/
structure FileInfo where
  name : String
  size : Int
  contentType : String
  updated : String
deriving Repr, DecidableEq

/-- Container data enumerated by `blobServiceClient.listContainers()`. -/
structure ContainerItem where
  name : String
  metadata : String
  lastModified : String
  etag : String
deriving Repr, DecidableEq

/-- Blob data enumerated by `containerClient.listBlobsFlat({ prefix })`. -/
structure BlobItem where
  name : String
  size : Int
  contentType : String
  lastModified : String
  etag : String
deriving Repr, DecidableEq

/-- External collaborators of `GcpTools`: whether the constructor's
`new Storage()` succeeded (`this.storage !== null`), the child-process oracle,
the GCS SDK oracles, and `JSON.parse` followed by re-serialization (used by the
GCE listing handlers; `none` models a parse failure). -/
structure GcpEnv where
  storageInit : Bool
  proc : String → ProcOutcome
  getBuckets : Except String (List BucketInfo)
  getFiles : String → String → Int → Except String (List FileInfo)
  download : String → String → Int → Except String String
  getMetadata : String → String → Except String String
  parseJson : String → Option String

/-- External collaborators of `AzureTools`: the child-process oracle, the blob
SDK oracles (keyed by the account/container/blob names a client is built for),
and `JSON.parse`. -/
structure AzureEnv where
  proc : String → ProcOutcome
  listContainers : String → Except String (List ContainerItem)
  listBlobsFlat : String → String → String → Except String (List BlobItem)
  downloadBlob : String → String → String → Int → Except String String
  getProperties : String → String → String → Except String String
  parseJson : String → Option String

/-! Brace-free stand-ins for `JSON.stringify(..., null, 2)`.  No claim depends
on the exact serialized text, only on which value is serialized. -/

/-- Quote a string (stand-in for JSON string rendering). -/
def quoteStr (s : String) : String := "\"" ++ s ++ "\""

/-- Stand-in for `JSON.stringify({stdout, stderr, exitCode}, null, 2)`. -/
def stringifyCommandResult (r : CommandResult) : String :=
  "(stdout: " ++ quoteStr r.stdout ++ ", stderr: " ++ quoteStr r.stderr ++
    ", exitCode: " ++ toString r.exitCode ++ ")"

/-- Stand-in for `JSON.stringify(bucketList, null, 2)`. -/
def stringifyBuckets (l : List BucketInfo) : String :=
  "[" ++ String.intercalate ", "
    (l.map (fun b => "(name: " ++ quoteStr b.name ++ ", location: " ++ quoteStr b.location ++
      ", created: " ++ quoteStr b.timeCreated ++ ", updated: " ++ quoteStr b.updated ++ ")")) ++ "]"

/-- Stand-in for `JSON.stringify(objectList, null, 2)`. -/
def stringifyFiles (l : List FileInfo) : String :=
  "[" ++ String.intercalate ", "
    (l.map (fun f => "(name: " ++ quoteStr f.name ++ ", size: " ++ toString f.size ++
      ", contentType: " ++ quoteStr f.contentType ++ ", updated: " ++ quoteStr f.updated ++ ")")) ++ "]"

/-- Entry pushed per enumerated container by `handleListContainers`. -/
structure ContainerEntry where
  name : String
  metadata : String
  lastModified : String
  etag : String
deriving Repr, DecidableEq

/-- Entry pushed per enumerated blob by `handleListBlobs`. -/
structure BlobEntry where
  name : String
  size : Int
  contentType : String
  lastModified : String
  etag : String
deriving Repr, DecidableEq

/-- Stand-in for `JSON.stringify(containers, null, 2)`. -/
def stringifyContainers (l : List ContainerEntry) : String :=
  "[" ++ String.intercalate ", "
    (l.map (fun c => "(name: " ++ quoteStr c.name ++ ", metadata: " ++ quoteStr c.metadata ++
      ", lastModified: " ++ quoteStr c.lastModified ++ ", etag: " ++ quoteStr c.etag ++ ")")) ++ "]"

/-- Stand-in for `JSON.stringify(blobs, null, 2)`. -/
def stringifyBlobs (l : List BlobEntry) : String :=
  "[" ++ String.intercalate ", "
    (l.map (fun b => "(name: " ++ quoteStr b.name ++ ", size: " ++ toString b.size ++
      ", contentType: " ++ quoteStr b.contentType ++ ", lastModified: " ++ quoteStr b.lastModified ++
      ", etag: " ++ quoteStr b.etag ++ ")")) ++ "]"

/-- Sequencing for handler bodies: an `Except` (thrown JS error) paired with
the trace of external calls made so far. -/
def hbind {α β : Type} (x : Except String α × List ExtEvent)
    (f : α → Except String β × List ExtEvent) : Except String β × List ExtEvent :=
  match x with
  | (Except.error e, tr) => (Except.error e, tr)
  | (Except.ok a, tr) => let (r, tr2) := f a; (r, tr ++ tr2)

/-- A handler step that neither throws nor calls out. -/
def hpure {α : Type} (a : α) : Except String α × List ExtEvent := (Except.ok a, [])

/-- Run one executor call from a GCP handler, tagging its spawn trace. -/
def runGcpStep (env : GcpEnv) (command : String) (projectId : Option String) :
    Except String CommandResult × List ExtEvent :=
  let (r, tr) := executeGcpCommand env.proc command projectId
  (r, tr.map ExtEvent.spawn)

/-- Run one executor call from an Azure handler, tagging its spawn trace. -/
def runAzureStep (env : AzureEnv) (command : String) (subscriptionId : Option String) :
    Except String CommandResult × List ExtEvent :=
  let (r, tr) := executeAzureCommand env.proc command subscriptionId
  (r, tr.map ExtEvent.spawn)

/-- The `try`/`catch` wrapper shared by both `handleTool` methods: a normally
returned envelope passes through; a thrown error becomes the uniform
`Error: <message>` envelope with `isError: true`. -/
def wrapHandlerResult : Except String ToolResponse × List ExtEvent → ToolResponse × List ExtEvent
  | (Except.ok resp, tr) => (resp, tr)
  | (Except.error msg, tr) =>
    ({ content := [{ type := "text", text := "Error: " ++ msg }], isError := some true }, tr)

/-! ## GcpTools handlers (src/tools/gcp-tools.ts) -/

namespace GcpTools

/-- `handleRunGcloudCommand`: requires `command`, runs it through the executor,
returns the serialized triple with `isError: result.exitCode !== 0`. -/
def handleRunGcloudCommand (env : GcpEnv) (args : Args) :
    Except String ToolResponse × List ExtEvent :=
  let command := getStrArg args "command"
  let projectId := getStrArg args "projectId"
  if !jsTruthyOptStr command then
    (Except.error "Command is required", [])
  else
    hbind (runGcpStep env (command.getD "") projectId) (fun result =>
      hpure { content := [{ type := "text", text := stringifyCommandResult result }],
              isError := some (!(result.exitCode = 0)) })

/-- `handleListBuckets`: builds a Storage client (fresh when `projectId` is
given, else the cached one or a fresh one — a client always exists, so the
`!storage` throw is unreachable), lists buckets and serializes the selection. -/
def handleListBuckets (env : GcpEnv) (args : Args) :
    Except String ToolResponse × List ExtEvent :=
  let _projectId := getStrArg args "projectId"
  match env.getBuckets with
  | Except.error msg =>
    (Except.error ("Failed to list buckets: " ++ msg), [ExtEvent.gcs StorageCall.getBuckets])
  | Except.ok buckets =>
    (Except.ok { content := [{ type := "text", text := stringifyBuckets buckets }],
                 isError := none },
     [ExtEvent.gcs StorageCall.getBuckets])

/-- `handleListObjects`: requires the cached Storage client and `bucketName`;
passes `prefix` and `maxResults` (default 100) through to
`bucket.getFiles({prefix, maxResults})`. -/
def handleListObjects (env : GcpEnv) (args : Args) :
    Except String ToolResponse × List ExtEvent :=
  if !env.storageInit then
    (Except.error "GCS client not initialized. Ensure Google Cloud credentials are configured.", [])
  else
    let bucketName := getStrArg args "bucketName"
    let pfx := jsOrStr (getStrArg args "prefix") ""
    let maxResults := jsOrInt (getNumArg args "maxResults") 100
    if !jsTruthyOptStr bucketName then
      (Except.error "Bucket name is required", [])
    else
      match env.getFiles (bucketName.getD "") pfx maxResults with
      | Except.error msg =>
        (Except.error ("Failed to list objects: " ++ msg),
         [ExtEvent.gcs (StorageCall.getFiles (bucketName.getD "") pfx maxResults)])
      | Except.ok files =>
        (Except.ok { content := [{ type := "text", text := stringifyFiles files }],
                     isError := none },
         [ExtEvent.gcs (StorageCall.getFiles (bucketName.getD "") pfx maxResults)])

/-- `handleReadObjectContent`: requires the client, `bucketName` and
`objectName`; downloads bytes `0 .. maxBytes-1` (default 1MB). -/
def handleReadObjectContent (env : GcpEnv) (args : Args) :
    Except String ToolResponse × List ExtEvent :=
  if !env.storageInit then
    (Except.error "GCS client not initialized. Ensure Google Cloud credentials are configured.", [])
  else
    let bucketName := getStrArg args "bucketName"
    let objectName := getStrArg args "objectName"
    let maxBytes := jsOrInt (getNumArg args "maxBytes") (1024 * 1024)
    if !(jsTruthyOptStr bucketName && jsTruthyOptStr objectName) then
      (Except.error "Bucket name and object name are required", [])
    else
      match env.download (bucketName.getD "") (objectName.getD "") (maxBytes - 1) with
      | Except.error msg =>
        (Except.error ("Failed to read object: " ++ msg),
         [ExtEvent.gcs (StorageCall.download (bucketName.getD "") (objectName.getD "") 0 (maxBytes - 1))])
      | Except.ok content =>
        (Except.ok { content := [{ type := "text", text := content }], isError := none },
         [ExtEvent.gcs (StorageCall.download (bucketName.getD "") (objectName.getD "") 0 (maxBytes - 1))])

/-- `handleGetObjectMetadata`: requires the client, `bucketName` and
`objectName`; serializes `file.getMetadata()`. -/
def handleGetObjectMetadata (env : GcpEnv) (args : Args) :
    Except String ToolResponse × List ExtEvent :=
  if !env.storageInit then
    (Except.error "GCS client not initialized. Ensure Google Cloud credentials are configured.", [])
  else
    let bucketName := getStrArg args "bucketName"
    let objectName := getStrArg args "objectName"
    if !(jsTruthyOptStr bucketName && jsTruthyOptStr objectName) then
      (Except.error "Bucket name and object name are required", [])
    else
      match env.getMetadata (bucketName.getD "") (objectName.getD "") with
      | Except.error msg =>
        (Except.error ("Failed to get object metadata: " ++ msg),
         [ExtEvent.gcs (StorageCall.getMetadata (bucketName.getD "") (objectName.getD ""))])
      | Except.ok metadataText =>
        (Except.ok { content := [{ type := "text", text := metadataText }], isError := none },
         [ExtEvent.gcs (StorageCall.getMetadata (bucketName.getD "") (objectName.getD ""))])

/-- `handleListGceInstances`: builds `compute instances list` with optional
`--zones=`/`--filter=` flags plus `--format=json`, runs it, then parses stdout
(empty stdout parses as `[]`); a parse failure yields a fallback body with
`isError: true`. -/
def handleListGceInstances (env : GcpEnv) (args : Args) :
    Except String ToolResponse × List ExtEvent :=
  let projectId := getStrArg args "projectId"
  let zone := getStrArg args "zone"
  let status := getStrArg args "status"
  let command0 := "compute instances list"
  let command1 := if jsTruthyOptStr zone then command0 ++ " --zones=" ++ zone.getD "" else command0
  let command2 :=
    if jsTruthyOptStr status then command1 ++ " --filter=\"status:" ++ status.getD "" ++ "\""
    else command1
  let command := command2 ++ " --format=json"
  hbind (runGcpStep env command projectId) (fun result =>
    match (if !(result.stdout = "") then env.parseJson result.stdout else some "[]") with
    | some instancesText =>
      hpure { content := [{ type := "text", text := instancesText }],
              isError := some (!(result.exitCode = 0)) }
    | none =>
      let fallbackText :=
        jsOrStr (some result.stdout) (jsOrStr (some result.stderr) "Failed to parse instance list")
      hpure { content := [{ type := "text", text := fallbackText }], isError := some true })

/-- `handleStartGceInstance`: requires `instance` and `zone`, runs
`compute instances start <instance> --zone=<zone>`. -/
def handleStartGceInstance (env : GcpEnv) (args : Args) :
    Except String ToolResponse × List ExtEvent :=
  let inst := getStrArg args "instance"
  let zone := getStrArg args "zone"
  let projectId := getStrArg args "projectId"
  if !(jsTruthyOptStr inst && jsTruthyOptStr zone) then
    (Except.error "Instance name and zone are required", [])
  else
    hbind (runGcpStep env ("compute instances start " ++ inst.getD "" ++ " --zone=" ++ zone.getD "")
        projectId) (fun result =>
      hpure { content := [{ type := "text", text := stringifyCommandResult result }],
              isError := some (!(result.exitCode = 0)) })

/-- `handleStopGceInstance`: as start, with `compute instances stop`. -/
def handleStopGceInstance (env : GcpEnv) (args : Args) :
    Except String ToolResponse × List ExtEvent :=
  let inst := getStrArg args "instance"
  let zone := getStrArg args "zone"
  let projectId := getStrArg args "projectId"
  if !(jsTruthyOptStr inst && jsTruthyOptStr zone) then
    (Except.error "Instance name and zone are required", [])
  else
    hbind (runGcpStep env ("compute instances stop " ++ inst.getD "" ++ " --zone=" ++ zone.getD "")
        projectId) (fun result =>
      hpure { content := [{ type := "text", text := stringifyCommandResult result }],
              isError := some (!(result.exitCode = 0)) })

/-- `handleRestartGceInstance`: as start, with `compute instances reset`. -/
def handleRestartGceInstance (env : GcpEnv) (args : Args) :
    Except String ToolResponse × List ExtEvent :=
  let inst := getStrArg args "instance"
  let zone := getStrArg args "zone"
  let projectId := getStrArg args "projectId"
  if !(jsTruthyOptStr inst && jsTruthyOptStr zone) then
    (Except.error "Instance name and zone are required", [])
  else
    hbind (runGcpStep env ("compute instances reset " ++ inst.getD "" ++ " --zone=" ++ zone.getD "")
        projectId) (fun result =>
      hpure { content := [{ type := "text", text := stringifyCommandResult result }],
              isError := some (!(result.exitCode = 0)) })

/-- `handleGetGceInstanceInfo`: requires `instance` and `zone`, runs
`compute instances describe ... --format=json`, parses stdout (empty stdout
parses as the empty object). -/
def handleGetGceInstanceInfo (env : GcpEnv) (args : Args) :
    Except String ToolResponse × List ExtEvent :=
  let inst := getStrArg args "instance"
  let zone := getStrArg args "zone"
  let projectId := getStrArg args "projectId"
  if !(jsTruthyOptStr inst && jsTruthyOptStr zone) then
    (Except.error "Instance name and zone are required", [])
  else
    hbind (runGcpStep env
        ("compute instances describe " ++ inst.getD "" ++ " --zone=" ++ zone.getD "" ++
          " --format=json") projectId) (fun result =>
      match (if !(result.stdout = "") then env.parseJson result.stdout else some "()") with
      | some infoText =>
        hpure { content := [{ type := "text", text := infoText }],
                isError := some (!(result.exitCode = 0)) }
      | none =>
        let fallbackText :=
          jsOrStr (some result.stdout) (jsOrStr (some result.stderr) "Failed to parse instance info")
        hpure { content := [{ type := "text", text := fallbackText }], isError := some true })

/-- `handleModifyGceInstance`: requires `instance` and `zone`; optionally runs a
`set-machine-type` step and an `add-labels` step sequentially, collecting one
`CommandResult` per executed step; throws when neither `machineType` nor
`labels` was provided; otherwise reports `isError` iff some step's exit code is
non-zero and joins the per-step outputs labeled `Operation <i+1>:`. -/
def handleModifyGceInstance (env : GcpEnv) (args : Args) :
    Except String ToolResponse × List ExtEvent :=
  let inst := getStrArg args "instance"
  let zone := getStrArg args "zone"
  let projectId := getStrArg args "projectId"
  let machineType := getStrArg args "machineType"
  let labels := getRecordArg args "labels"
  if !(jsTruthyOptStr inst && jsTruthyOptStr zone) then
    (Except.error "Instance name and zone are required", [])
  else
    let command0 := "compute instances set-machine-type " ++ inst.getD "" ++ " --zone=" ++ zone.getD ""
    let command :=
      if jsTruthyOptStr machineType then command0 ++ " --machine-type=" ++ machineType.getD ""
      else command0
    hbind (if jsTruthyOptStr machineType then
             hbind (runGcpStep env command projectId) (fun r => hpure [r])
           else hpure [])
      (fun results1 =>
        hbind (match labels with
          | some labelPairs =>
            let labelsStr := String.intercalate "," (labelPairs.map (fun kv => kv.1 ++ "=" ++ kv.2))
            hbind (runGcpStep env
                ("compute instances add-labels " ++ inst.getD "" ++ " --zone=" ++ zone.getD "" ++
                  " --labels=" ++ labelsStr) projectId)
              (fun r => hpure (results1 ++ [r]))
          | none => hpure results1)
        (fun results =>
          if results.length = 0 then
            (Except.error "Either machineType or labels must be provided", [])
          else
            let combinedOutput := String.intercalate "\n\n" (results.enum.map (fun p =>
              "Operation " ++ toString (p.1 + 1) ++ ":\n" ++ p.2.stdout ++ "\n" ++ p.2.stderr))
            hpure { content := [{ type := "text", text := combinedOutput }],
                    isError := some (results.any (fun r => !(r.exitCode = 0))) }))

/-- `GcpTools.handleTool`: name-keyed switch over the eleven GCP tools with an
`Unknown GCP tool` throw as default, wrapped in the `try`/`catch` that converts
any thrown error into the uniform `Error: <message>` envelope. -/
def handleTool (env : GcpEnv) (name : String) (args : Args) : ToolResponse × List ExtEvent :=
  wrapHandlerResult (
    if name = "gcp_run_gcloud_command" then handleRunGcloudCommand env args
    else if name = "gcp_list_buckets" then handleListBuckets env args
    else if name = "gcp_list_objects" then handleListObjects env args
    else if name = "gcp_read_object_content" then handleReadObjectContent env args
    else if name = "gcp_get_object_metadata" then handleGetObjectMetadata env args
    else if name = "gcp_list_gce_instances" then handleListGceInstances env args
    else if name = "gcp_start_gce_instance" then handleStartGceInstance env args
    else if name = "gcp_stop_gce_instance" then handleStopGceInstance env args
    else if name = "gcp_restart_gce_instance" then handleRestartGceInstance env args
    else if name = "gcp_get_gce_instance_info" then handleGetGceInstanceInfo env args
    else if name = "gcp_modify_gce_instance" then handleModifyGceInstance env args
    else (Except.error ("Unknown GCP tool: " ++ name), []))

end GcpTools

/-! ## AzureTools handlers (src/tools/azure-tools.ts) -/

/-- The entry `handleListContainers` pushes for one enumerated container. -/
def containerEntryOfItem (c : ContainerItem) : ContainerEntry :=
  { name := c.name, metadata := c.metadata, lastModified := c.lastModified, etag := c.etag }

/-- The entry `handleListBlobs` pushes for one enumerated blob. -/
def blobEntryOfItem (b : BlobItem) : BlobEntry :=
  { name := b.name, size := b.size, contentType := b.contentType,
    lastModified := b.lastModified, etag := b.etag }

/-- The `for await` loop of `handleListContainers` — every enumerated container
is pushed; the loop has no result cap. -/
def azureListContainersCollected : List ContainerItem → List ContainerEntry
  | [] => []
  | c :: rest => containerEntryOfItem c :: azureListContainersCollected rest

/-- The `for await` loop of `handleListBlobs`: starting from `count`, push an
entry per blob until `count >= maxResults` breaks the loop. -/
def azureListBlobsLoop (maxResults : Int) : List BlobItem → Int → List BlobEntry
  | [], _ => []
  | b :: rest, count =>
    if count ≥ maxResults then []
    else blobEntryOfItem b :: azureListBlobsLoop maxResults rest (count + 1)

/-- Entries collected by `handleListBlobs` over the backing enumeration. -/
def azureListBlobsCollected (backing : List BlobItem) (maxResults : Int) : List BlobEntry :=
  azureListBlobsLoop maxResults backing 0

namespace AzureTools

/-- `handleRunAzCommand`: requires `command`, runs it through the executor,
returns the serialized triple with `isError: result.exitCode !== 0`. -/
def handleRunAzCommand (env : AzureEnv) (args : Args) :
    Except String ToolResponse × List ExtEvent :=
  let command := getStrArg args "command"
  let subscriptionId := getStrArg args "subscriptionId"
  if !jsTruthyOptStr command then
    (Except.error "Command is required", [])
  else
    hbind (runAzureStep env (command.getD "") subscriptionId) (fun result =>
      hpure { content := [{ type := "text", text := stringifyCommandResult result }],
              isError := some (!(result.exitCode = 0)) })

/-- `handleListStorageAccounts`: runs `storage account list` (with an optional
`--resource-group` flag) through the executor; a non-zero exit or a JSON parse
failure throws; otherwise the parsed account list is re-serialized. -/
def handleListStorageAccounts (env : AzureEnv) (args : Args) :
    Except String ToolResponse × List ExtEvent :=
  let subscriptionId := getStrArg args "subscriptionId"
  let resourceGroup := getStrArg args "resourceGroup"
  let command0 := "storage account list"
  let command :=
    if jsTruthyOptStr resourceGroup then command0 ++ " --resource-group " ++ resourceGroup.getD ""
    else command0
  hbind (runAzureStep env command subscriptionId) (fun result =>
    if !(result.exitCode = 0) then
      (Except.error ("Failed to list storage accounts: " ++ result.stderr), [])
    else
      match env.parseJson result.stdout with
      | none => (Except.error "Failed to parse storage accounts output", [])
      | some accountsText =>
        hpure { content := [{ type := "text", text := accountsText }], isError := none })

/-- `handleListContainers`: requires `accountName`; enumerates every container
of the account (no result cap) and serializes the collected entries. -/
def handleListContainers (env : AzureEnv) (args : Args) :
    Except String ToolResponse × List ExtEvent :=
  let accountName := getStrArg args "accountName"
  let _accountKey := getStrArg args "accountKey"
  if !jsTruthyOptStr accountName then
    (Except.error "Account name is required", [])
  else
    match env.listContainers (accountName.getD "") with
    | Except.error msg =>
      (Except.error ("Failed to list containers: " ++ msg),
       [ExtEvent.blob (AzureBlobCall.listContainers (accountName.getD ""))])
    | Except.ok backing =>
      let entriesText := stringifyContainers (azureListContainersCollected backing)
      (Except.ok { content := [{ type := "text", text := entriesText }], isError := none },
       [ExtEvent.blob (AzureBlobCall.listContainers (accountName.getD ""))])

/-- `handleListBlobs`: requires `accountName` and `containerName`; passes
`prefix` to `listBlobsFlat` and collects entries until the `maxResults` cap
(default 100) breaks the enumeration. -/
def handleListBlobs (env : AzureEnv) (args : Args) :
    Except String ToolResponse × List ExtEvent :=
  let accountName := getStrArg args "accountName"
  let containerName := getStrArg args "containerName"
  let pfx := jsOrStr (getStrArg args "prefix") ""
  let maxResults := jsOrInt (getNumArg args "maxResults") 100
  let _accountKey := getStrArg args "accountKey"
  if !(jsTruthyOptStr accountName && jsTruthyOptStr containerName) then
    (Except.error "Account name and container name are required", [])
  else
    match env.listBlobsFlat (accountName.getD "") (containerName.getD "") pfx with
    | Except.error msg =>
      (Except.error ("Failed to list blobs: " ++ msg),
       [ExtEvent.blob (AzureBlobCall.listBlobsFlat (accountName.getD "") (containerName.getD "") pfx)])
    | Except.ok backing =>
      let entriesText := stringifyBlobs (azureListBlobsCollected backing maxResults)
      (Except.ok { content := [{ type := "text", text := entriesText }], isError := none },
       [ExtEvent.blob (AzureBlobCall.listBlobsFlat (accountName.getD "") (containerName.getD "") pfx)])

/-- `handleReadBlobContent`: requires `accountName`, `containerName` and
`blobName`; downloads bytes `0 .. maxBytes` (default 1MB). -/
def handleReadBlobContent (env : AzureEnv) (args : Args) :
    Except String ToolResponse × List ExtEvent :=
  let accountName := getStrArg args "accountName"
  let containerName := getStrArg args "containerName"
  let blobName := getStrArg args "blobName"
  let maxBytes := jsOrInt (getNumArg args "maxBytes") (1024 * 1024)
  let _accountKey := getStrArg args "accountKey"
  if !(jsTruthyOptStr accountName && (jsTruthyOptStr containerName && jsTruthyOptStr blobName)) then
    (Except.error "Account name, container name, and blob name are required", [])
  else
    match env.downloadBlob (accountName.getD "") (containerName.getD "") (blobName.getD "") maxBytes with
    | Except.error msg =>
      (Except.error ("Failed to read blob: " ++ msg),
       [ExtEvent.blob (AzureBlobCall.download (accountName.getD "") (containerName.getD "")
         (blobName.getD "") maxBytes)])
    | Except.ok content =>
      (Except.ok { content := [{ type := "text", text := content }], isError := none },
       [ExtEvent.blob (AzureBlobCall.download (accountName.getD "") (containerName.getD "")
         (blobName.getD "") maxBytes)])

/-- `handleGetBlobMetadata`: requires `accountName`, `containerName` and
`blobName`; serializes `blobClient.getProperties()`. -/
def handleGetBlobMetadata (env : AzureEnv) (args : Args) :
    Except String ToolResponse × List ExtEvent :=
  let accountName := getStrArg args "accountName"
  let containerName := getStrArg args "containerName"
  let blobName := getStrArg args "blobName"
  let _accountKey := getStrArg args "accountKey"
  if !(jsTruthyOptStr accountName && (jsTruthyOptStr containerName && jsTruthyOptStr blobName)) then
    (Except.error "Account name, container name, and blob name are required", [])
  else
    match env.getProperties (accountName.getD "") (containerName.getD "") (blobName.getD "") with
    | Except.error msg =>
      (Except.error ("Failed to get blob metadata: " ++ msg),
       [ExtEvent.blob (AzureBlobCall.getProperties (accountName.getD "") (containerName.getD "")
         (blobName.getD ""))])
    | Except.ok metadataText =>
      (Except.ok { content := [{ type := "text", text := metadataText }], isError := none },
       [ExtEvent.blob (AzureBlobCall.getProperties (accountName.getD "") (containerName.getD "")
         (blobName.getD ""))])

/-- `AzureTools.handleTool`: name-keyed switch over the six Azure tools with an
`Unknown Azure tool` throw as default, wrapped in the `try`/`catch` that
converts thrown errors into the uniform `Error: <message>` envelope. -/
def handleTool (env : AzureEnv) (name : String) (args : Args) : ToolResponse × List ExtEvent :=
  wrapHandlerResult (
    if name = "azure_run_az_command" then handleRunAzCommand env args
    else if name = "azure_list_storage_accounts" then handleListStorageAccounts env args
    else if name = "azure_list_containers" then handleListContainers env args
    else if name = "azure_list_blobs" then handleListBlobs env args
    else if name = "azure_read_blob_content" then handleReadBlobContent env args
    else if name = "azure_get_blob_metadata" then handleGetBlobMetadata env args
    else (Except.error ("Unknown Azure tool: " ++ name), []))

end AzureTools

/-! ## Front-end dispatch seams -/

/-- The `CallToolRequestSchema` handler of `src/index.ts`: routes by name
prefix to the provider handler set; a name with neither prefix throws
`Unknown tool: <name>` out of the dispatch (to be handled by the MCP SDK
transport layer), so the router returns no `ToolResponse` for it. -/
def dispatchToolCall (genv : GcpEnv) (aenv : AzureEnv) (name : String) (args : Args) :
    Except String (ToolResponse × List ExtEvent) :=
  if jsStartsWith name "gcp_" then Except.ok (GcpTools.handleTool genv name args)
  else if jsStartsWith name "azure_" then Except.ok (AzureTools.handleTool aenv name args)
  else Except.error ("Unknown tool: " ++ name)

/-- Result of `POST /tools/:toolName` in `src/http-server.ts`: either
`res.json(result)` with the handler's envelope, or an
`res.status(<status>).json({error: <message>})` error payload. -/
inductive HttpToolsResult where
  | okResp (resp : ToolResponse)
  | errorJson (status : Nat) (message : String)
deriving Repr, DecidableEq

/-- The `POST /tools/:toolName` route: prefix routing as in the stdio server,
but a name with neither prefix is answered with a 400 error payload
`Unknown tool: <name>` instead of a `ToolResponse`. -/
def httpPostTool (genv : GcpEnv) (aenv : AzureEnv) (toolName : String) (args : Args) :
    HttpToolsResult × List ExtEvent :=
  if jsStartsWith toolName "gcp_" then
    let (r, tr) := GcpTools.handleTool genv toolName args
    (HttpToolsResult.okResp r, tr)
  else if jsStartsWith toolName "azure_" then
    let (r, tr) := AzureTools.handleTool aenv toolName args
    (HttpToolsResult.okResp r, tr)
  else
    (HttpToolsResult.errorJson 400 ("Unknown tool: " ++ toolName), [])

/-! ## Concrete fixtures (used by witnesses and counterexamples) -/

/-- A child-process oracle that always succeeds with fixed output. -/
def okProc : String → ProcOutcome := fun _ => ProcOutcome.success "out" ""

/-- A concrete `GcpEnv` with an initialized storage client and benign oracles. -/
def gcpEnvEx : GcpEnv where
  storageInit := true
  proc := okProc
  getBuckets := Except.ok []
  getFiles := fun _ _ _ => Except.ok []
  download := fun _ _ _ => Except.ok "data"
  getMetadata := fun _ _ => Except.ok "(metadata)"
  parseJson := fun s => some s

/-- A concrete `AzureEnv` with benign oracles. -/
def azureEnvEx : AzureEnv where
  proc := okProc
  listContainers := fun _ => Except.ok []
  listBlobsFlat := fun _ _ _ => Except.ok []
  downloadBlob := fun _ _ _ _ => Except.ok "data"
  getProperties := fun _ _ _ => Except.ok "(properties)"
  parseJson := fun s => some s

/-- A concrete container record. -/
def containerEx : ContainerItem where
  name := "c"
  metadata := ""
  lastModified := "2024-01-01"
  etag := "e1"

/-! ## Helper lemmas -/

/-- A string starting with a nonempty token is nonempty, stated for the
normalized command. -/
theorem trim_ne_empty_of_startsWith (command b : String) (hbne : b ≠ "")
    (h : jsStartsWith (jsToLower (jsTrim command)) b = true) : ¬ (jsTrim command = "") := by
  intro he
  rw [he] at h
  have hfalse : jsStartsWith (jsToLower "") b = false := by
    cases b with
    | mk l =>
      cases l with
      | nil => exact absurd rfl hbne
      | cons c cs => rfl
  rw [hfalse] at h
  exact Bool.false_ne_true h

/-- The rejection reason attached to a denylisted command is never empty. -/
theorem blocked_reason_ne_empty (blocked : String) :
    ("Command blocked: " ++ blocked ++ " commands are not allowed for security reasons") ≠ "" := by
  intro h
  have h2 := congrArg String.data h
  simp [String.data_append] at h2

/-- Every GCP denylist entry is a nonempty token. -/
theorem mem_blocked_gcp_ne_empty (b : String) (hb : b ∈ BLOCKED_GCP_COMMANDS) : b ≠ "" := by
  simp only [BLOCKED_GCP_COMMANDS, List.mem_cons, List.not_mem_nil, or_false] at hb
  rcases hb with rfl | rfl | rfl | rfl | rfl <;> decide

/-- Every Azure denylist entry is a nonempty token. -/
theorem mem_blocked_azure_ne_empty (b : String) (hb : b ∈ BLOCKED_AZURE_COMMANDS) : b ≠ "" := by
  simp only [BLOCKED_AZURE_COMMANDS, List.mem_cons, List.not_mem_nil, or_false] at hb
  rcases hb with rfl | rfl | rfl <;> decide

/-- Shape of `validateGcpCommand` when the denylist scan finds a match. -/
theorem validateGcpCommand_of_find (command blocked : String)
    (htrim : ¬ jsTrim command = "")
    (hfind : BLOCKED_GCP_COMMANDS.find?
        (fun b => jsStartsWith (jsToLower (jsTrim command)) b) = some blocked) :
    validateGcpCommand command =
      { valid := false,
        reason := some ("Command blocked: " ++ blocked ++
          " commands are not allowed for security reasons") } := by
  unfold validateGcpCommand
  rw [if_neg htrim, hfind]

/-- Shape of `validateAzureCommand` when the denylist scan finds a match. -/
theorem validateAzureCommand_of_find (command blocked : String)
    (htrim : ¬ jsTrim command = "")
    (hfind : BLOCKED_AZURE_COMMANDS.find?
        (fun b => jsStartsWith (jsToLower (jsTrim command)) b) = some blocked) :
    validateAzureCommand command =
      { valid := false,
        reason := some ("Command blocked: " ++ blocked ++
          " commands are not allowed for security reasons") } := by
  unfold validateAzureCommand
  rw [if_neg htrim, hfind]

/-- An invalid command makes `executeGcpCommand` throw without spawning. -/
theorem executeGcpCommand_invalid (proc : String → ProcOutcome) (command : String)
    (scopeId : Option String) (hv : (validateGcpCommand command).valid = false) :
    executeGcpCommand proc command scopeId =
      (Except.error (jsOrStr (validateGcpCommand command).reason "Command validation failed"), []) := by
  simp [executeGcpCommand, hv]

/-- An invalid command makes `executeAzureCommand` throw without spawning. -/
theorem executeAzureCommand_invalid (proc : String → ProcOutcome) (command : String)
    (scopeId : Option String) (hv : (validateAzureCommand command).valid = false) :
    executeAzureCommand proc command scopeId =
      (Except.error (jsOrStr (validateAzureCommand command).reason "Command validation failed"), []) := by
  simp [executeAzureCommand, hv]

/-- A valid command makes `executeGcpCommand` spawn exactly the constructed
invocation and normalize its outcome. -/
theorem executeGcpCommand_valid (proc : String → ProcOutcome) (command : String)
    (scopeId : Option String) (hv : (validateGcpCommand command).valid = true) :
    executeGcpCommand proc command scopeId =
      (Except.ok (commandResultOfOutcome (proc (gcpFullCommand command scopeId))),
       [gcpFullCommand command scopeId]) := by
  simp [executeGcpCommand, hv]

/-- A valid command makes `executeAzureCommand` spawn exactly the constructed
invocation and normalize its outcome. -/
theorem executeAzureCommand_valid (proc : String → ProcOutcome) (command : String)
    (scopeId : Option String) (hv : (validateAzureCommand command).valid = true) :
    executeAzureCommand proc command scopeId =
      (Except.ok (commandResultOfOutcome (proc (azureFullCommand command scopeId))),
       [azureFullCommand command scopeId]) := by
  simp [executeAzureCommand, hv]

/-- `s || ''` is `s` for a present string. -/
theorem jsOrStr_some_empty (s : String) : jsOrStr (some s) "" = s := by
  simp only [jsOrStr]
  split
  · rename_i h
    exact h.symm
  · rfl

/-- `hbind` on a normally returned value: run the continuation and append its
trace. -/
theorem hbind_ok {α β : Type} (a : α) (tr : List ExtEvent)
    (f : α → Except String β × List ExtEvent) :
    hbind (Except.ok a, tr) f = ((f a).1, tr ++ (f a).2) := by
  show (match f a with | (r, tr2) => ((r, tr ++ tr2) : Except String β × List ExtEvent)) =
    ((f a).1, tr ++ (f a).2)
  rcases f a with ⟨r, tr2⟩
  rfl

/-- `hbind` on a thrown error: the error and the trace so far propagate. -/
theorem hbind_error {α β : Type} (msg : String) (tr : List ExtEvent)
    (f : α → Except String β × List ExtEvent) :
    hbind (Except.error msg, tr) f = (Except.error msg, tr) := rfl

/-- `runGcpStep` on a valid command: one spawn, normalized result. -/
theorem runGcpStep_ok (env : GcpEnv) (command : String) (scopeId : Option String)
    (hv : (validateGcpCommand command).valid = true) :
    runGcpStep env command scopeId =
      (Except.ok (commandResultOfOutcome (env.proc (gcpFullCommand command scopeId))),
       [ExtEvent.spawn (gcpFullCommand command scopeId)]) := by
  simp [runGcpStep, executeGcpCommand_valid env.proc command scopeId hv]

/-! ## Claims -/

/-- C1: for every command whose normalized (trimmed, lowercased) text starts
with a denylisted token for its provider (GCP: auth, config, init, beta,
alpha; Azure: login, account, config), `validate` returns not-permitted with a
non-empty reason, and the Executor throws before any execution step — the
spawn trace is empty. -/
theorem denylisted_commands_never_execute (command : String) (scopeId : Option String)
    (proc : String → ProcOutcome) :
    ((∃ b ∈ BLOCKED_GCP_COMMANDS, jsStartsWith (jsToLower (jsTrim command)) b = true) →
      (validateGcpCommand command).valid = false ∧
      (∃ r, (validateGcpCommand command).reason = some r ∧ r ≠ "") ∧
      (∃ msg, (executeGcpCommand proc command scopeId).1 = Except.error msg) ∧
      (executeGcpCommand proc command scopeId).2 = []) ∧
    ((∃ b ∈ BLOCKED_AZURE_COMMANDS, jsStartsWith (jsToLower (jsTrim command)) b = true) →
      (validateAzureCommand command).valid = false ∧
      (∃ r, (validateAzureCommand command).reason = some r ∧ r ≠ "") ∧
      (∃ msg, (executeAzureCommand proc command scopeId).1 = Except.error msg) ∧
      (executeAzureCommand proc command scopeId).2 = []) := by
  constructor
  · rintro ⟨b, hbmem, hsw⟩
    have htrim : ¬ (jsTrim command = "") :=
      trim_ne_empty_of_startsWith command b (mem_blocked_gcp_ne_empty b hbmem) hsw
    have hfind : (BLOCKED_GCP_COMMANDS.find?
        (fun blocked => jsStartsWith (jsToLower (jsTrim command)) blocked)).isSome :=
      List.find?_isSome.mpr ⟨b, hbmem, hsw⟩
    obtain ⟨blocked, hfound⟩ := Option.isSome_iff_exists.mp hfind
    have hval := validateGcpCommand_of_find command blocked htrim hfound
    have hexec := executeGcpCommand_invalid proc command scopeId (by rw [hval])
    refine ⟨by rw [hval],
      ⟨"Command blocked: " ++ blocked ++ " commands are not allowed for security reasons",
        by rw [hval], blocked_reason_ne_empty blocked⟩,
      ⟨jsOrStr (validateGcpCommand command).reason "Command validation failed", ?_⟩, ?_⟩
    · rw [hexec]
    · rw [hexec]
  · rintro ⟨b, hbmem, hsw⟩
    have htrim : ¬ (jsTrim command = "") :=
      trim_ne_empty_of_startsWith command b (mem_blocked_azure_ne_empty b hbmem) hsw
    have hfind : (BLOCKED_AZURE_COMMANDS.find?
        (fun blocked => jsStartsWith (jsToLower (jsTrim command)) blocked)).isSome :=
      List.find?_isSome.mpr ⟨b, hbmem, hsw⟩
    obtain ⟨blocked, hfound⟩ := Option.isSome_iff_exists.mp hfind
    have hval := validateAzureCommand_of_find command blocked htrim hfound
    have hexec := executeAzureCommand_invalid proc command scopeId (by rw [hval])
    refine ⟨by rw [hval],
      ⟨"Command blocked: " ++ blocked ++ " commands are not allowed for security reasons",
        by rw [hval], blocked_reason_ne_empty blocked⟩,
      ⟨jsOrStr (validateAzureCommand command).reason "Command validation failed", ?_⟩, ?_⟩
    · rw [hexec]
    · rw [hexec]

/-- Witness for C1 at `"auth list"` (GCP) and `"login --help"` (Azure). -/
theorem denylisted_commands_never_execute_witness :
    (validateGcpCommand "auth list").valid = false ∧
    (executeGcpCommand okProc "auth list" none).2 = [] ∧
    (validateAzureCommand "login --help").valid = false ∧
    (executeAzureCommand okProc "login --help" none).2 = [] := by
  have h1 := (denylisted_commands_never_execute "auth list" none okProc).1 (by decide)
  have h2 := (denylisted_commands_never_execute "login --help" none okProc).2 (by decide)
  exact ⟨h1.1, h1.2.2.2, h2.1, h2.2.2.2⟩

/-- C2: for every validated command the Executor never throws on
external-process failure.  Exit code 0 gives `{stdout, stderr, exitCode: 0}`;
any caught failure gives a non-zero `exitCode` equal to the process's reported
code (or 1 when none is available), `stdout` equal to whatever partial output
exists (`error.stdout || ''`), and `stderr` populated from the process's
stderr when present, else from the diagnostic message. -/
theorem executor_never_raises_and_normalizes (command : String) (scopeId : Option String)
    (proc : String → ProcOutcome) :
    ((validateGcpCommand command).valid = true →
      (executeGcpCommand proc command scopeId).1 =
        Except.ok (commandResultOfOutcome (proc (gcpFullCommand command scopeId)))) ∧
    ((validateAzureCommand command).valid = true →
      (executeAzureCommand proc command scopeId).1 =
        Except.ok (commandResultOfOutcome (proc (azureFullCommand command scopeId)))) ∧
    (∀ out err, commandResultOfOutcome (ProcOutcome.success out err) =
      { stdout := out, stderr := err, exitCode := 0 }) ∧
    (∀ e, ¬ (commandResultOfOutcome (ProcOutcome.failure e)).exitCode = 0 ∧
      (commandResultOfOutcome (ProcOutcome.failure e)).stdout = jsOrStr e.stdout "" ∧
      (e.code = none → (commandResultOfOutcome (ProcOutcome.failure e)).exitCode = 1) ∧
      (∀ c, e.code = some c → ¬ c = 0 →
        (commandResultOfOutcome (ProcOutcome.failure e)).exitCode = c) ∧
      (∀ s, e.stderr = some s → ¬ s = "" →
        (commandResultOfOutcome (ProcOutcome.failure e)).stderr = s) ∧
      ((e.stderr = none ∨ e.stderr = some "") →
        (commandResultOfOutcome (ProcOutcome.failure e)).stderr = jsOrStr (some e.message) "")) := by
  refine ⟨?_, ?_, ?_, ?_⟩
  · intro hv
    rw [executeGcpCommand_valid proc command scopeId hv]
  · intro hv
    rw [executeAzureCommand_valid proc command scopeId hv]
  · intro out err
    simp [commandResultOfOutcome, jsOrStr_some_empty]
  · intro e
    refine ⟨?_, rfl, ?_, ?_, ?_, ?_⟩
    · simp only [commandResultOfOutcome, jsOrInt]
      rcases e.code with _ | c
      · simp
      · simp only []
        split <;> omega
    · intro h
      simp [commandResultOfOutcome, jsOrInt, h]
    · intro c hc hc0
      simp [commandResultOfOutcome, jsOrInt, hc, hc0]
    · intro s hs hs0
      simp [commandResultOfOutcome, jsOrStr, hs, hs0]
    · rintro (h | h) <;> simp [commandResultOfOutcome, jsOrStr, h]

/-- Witness for C2 at a spawn failure (no exit code, no stderr) of a validated
command: the Executor returns `exitCode 1`, the partial stdout, and the
diagnostic message as stderr, without throwing. -/
theorem executor_never_raises_and_normalizes_witness :
    (executeGcpCommand (fun _ => ProcOutcome.failure
        { stdout := some "partial", stderr := none, message := "spawn failed", code := none })
      "compute instances list" none).1 =
      Except.ok { stdout := "partial", stderr := "spawn failed", exitCode := 1 } := by
  have h := (executor_never_raises_and_normalizes "compute instances list" none
    (fun _ => ProcOutcome.failure
      { stdout := some "partial", stderr := none, message := "spawn failed", code := none })).1
    (by decide)
  rw [h]
  rfl

/-- C7 counterexample: on the empty command both validators attach the reason
string `"Empty command"` (capital E), not `"empty command"` as claimed. -/
theorem empty_command_reason_counterexample :
    validateGcpCommand "" = { valid := false, reason := some "Empty command" } ∧
    validateAzureCommand " \t " = { valid := false, reason := some "Empty command" } ∧
    ¬ (validateGcpCommand "").reason = some "empty command" := by
  refine ⟨by decide, by decide, by decide⟩

/-- C7 amended: for every empty or whitespace-only command string and both
providers, `validate` returns not-permitted with reason `"Empty command"`. -/
theorem empty_command_rejected (command : String) (h : jsTrim command = "") :
    validateGcpCommand command = { valid := false, reason := some "Empty command" } ∧
    validateAzureCommand command = { valid := false, reason := some "Empty command" } := by
  constructor
  · unfold validateGcpCommand
    rw [if_pos h]
  · unfold validateAzureCommand
    rw [if_pos h]

/-- Witness for the amended C7 at the whitespace-only command `" \t "`. -/
theorem empty_command_rejected_witness :
    validateGcpCommand " \t " = { valid := false, reason := some "Empty command" } ∧
    validateAzureCommand " \t " = { valid := false, reason := some "Empty command" } :=
  empty_command_rejected " \t " (by decide)

/-- C8: every GCP command whose normalized text contains both the
format-specifier token `--format` and the evaluation token `eval` is rejected
with a non-empty reason, while the Azure validator applies no such check — its
only rejection causes are the empty command and the denylist prefixes, so a
command containing both tokens passes Azure validation whenever it is
non-empty and not denylisted. -/
theorem gcp_format_eval_guard (command : String) :
    ((jsIncludes (jsToLower (jsTrim command)) "--format" = true ∧
      jsIncludes (jsToLower (jsTrim command)) "eval" = true) →
      (validateGcpCommand command).valid = false ∧
      ∃ r, (validateGcpCommand command).reason = some r ∧ r ≠ "") ∧
    (∀ c, (validateAzureCommand c).valid = false →
      jsTrim c = "" ∨ ∃ b ∈ BLOCKED_AZURE_COMMANDS, jsStartsWith (jsToLower (jsTrim c)) b = true) := by
  constructor
  · rintro ⟨h1, h2⟩
    by_cases htrim : jsTrim command = ""
    · rw [htrim] at h1
      exact absurd h1 (by decide)
    · unfold validateGcpCommand
      rw [if_neg htrim]
      cases hf : BLOCKED_GCP_COMMANDS.find?
          (fun blocked => jsStartsWith (jsToLower (jsTrim command)) blocked) with
      | some blocked =>
        exact ⟨rfl, "Command blocked: " ++ blocked ++
          " commands are not allowed for security reasons", rfl, blocked_reason_ne_empty blocked⟩
      | none =>
        rw [h1, h2]
        exact ⟨rfl, "Potentially dangerous format evaluation detected", rfl, by decide⟩
  · intro c hv
    by_cases htrim : jsTrim c = ""
    · exact Or.inl htrim
    · refine Or.inr ?_
      unfold validateAzureCommand at hv
      rw [if_neg htrim] at hv
      cases hf : BLOCKED_AZURE_COMMANDS.find?
          (fun blocked => jsStartsWith (jsToLower (jsTrim c)) blocked) with
      | some blocked =>
        exact ⟨blocked, List.mem_of_find?_eq_some hf, List.find?_some hf⟩
      | none =>
        rw [hf] at hv
        simp at hv

/-- Witness for C8: the GCP validator rejects
`"compute instances list --format eval"` while the Azure validator, applied to
the same token-carrying text `"vm list --format eval"`, accepts it; the Azure
completeness half is applied at the denylisted `"login x"`. -/
theorem gcp_format_eval_guard_witness :
    (validateGcpCommand "compute instances list --format eval").valid = false ∧
    (validateAzureCommand "vm list --format eval").valid = true ∧
    (jsTrim "login x" = "" ∨
      ∃ b ∈ BLOCKED_AZURE_COMMANDS, jsStartsWith (jsToLower (jsTrim "login x")) b = true) := by
  refine ⟨((gcp_format_eval_guard "compute instances list --format eval").1
    ⟨by decide, by decide⟩).1, by decide, ?_⟩
  exact (gcp_format_eval_guard "vm list --format eval").2 "login x" (by decide)

/-- `isPrefixOf` is reflexive. -/
theorem isPrefixOf_self (l : List Char) : l.isPrefixOf l = true := by
  induction l with
  | nil => rfl
  | cons c t ih => simp [List.isPrefixOf, ih]

/-- A list is an infix of anything it suffixes (helper for "the message names
the tool"). -/
theorem listContainsChar_append_self (a b : List Char) : listContainsChar (a ++ b) b = true := by
  induction a with
  | nil =>
    cases b with
    | nil => rfl
    | cons c cs =>
      show ((c :: cs).isPrefixOf (c :: cs) || listContainsChar cs (c :: cs)) = true
      rw [isPrefixOf_self, Bool.true_or]
  | cons c a' ih =>
    show (b.isPrefixOf (c :: (a' ++ b)) || listContainsChar (a' ++ b) b) = true
    rw [ih, Bool.or_true]

/-- C3 counterexample: dispatching the tool name `"unknown_tool"` does not give
the caller a `ToolResponse` at all — the stdio dispatch throws
`Unknown tool: unknown_tool` (handled only by the MCP SDK transport), and the
HTTP route answers with a 400 error payload instead of an envelope. -/
theorem unknown_tool_dispatch_counterexample :
    dispatchToolCall gcpEnvEx azureEnvEx "unknown_tool" [] =
      Except.error "Unknown tool: unknown_tool" ∧
    httpPostTool gcpEnvEx azureEnvEx "unknown_tool" [] =
      (HttpToolsResult.errorJson 400 "Unknown tool: unknown_tool", []) :=
  ⟨rfl, rfl⟩

/-- C3 amended: a tool name with neither recognized prefix makes the dispatch
raise an error naming the tool (`Unknown tool: <name>`), which escapes the
router (the stdio front-end throws it to the SDK transport; the HTTP front-end
converts it to a 400 error payload) — no `ToolResponse` is produced; only a
name *with* a recognized provider prefix but an unrecognized suffix yields the
uniform `ToolResponse` with `isError: true` naming the tool. -/
theorem unknown_tool_error_escapes (name : String) (args : Args)
    (genv : GcpEnv) (aenv : AzureEnv) :
    (jsStartsWith name "gcp_" = false → jsStartsWith name "azure_" = false →
      dispatchToolCall genv aenv name args = Except.error ("Unknown tool: " ++ name) ∧
      httpPostTool genv aenv name args =
        (HttpToolsResult.errorJson 400 ("Unknown tool: " ++ name), []) ∧
      jsIncludes ("Unknown tool: " ++ name) name = true) ∧
    (name ≠ "gcp_run_gcloud_command" → name ≠ "gcp_list_buckets" → name ≠ "gcp_list_objects" →
      name ≠ "gcp_read_object_content" → name ≠ "gcp_get_object_metadata" →
      name ≠ "gcp_list_gce_instances" → name ≠ "gcp_start_gce_instance" →
      name ≠ "gcp_stop_gce_instance" → name ≠ "gcp_restart_gce_instance" →
      name ≠ "gcp_get_gce_instance_info" → name ≠ "gcp_modify_gce_instance" →
      GcpTools.handleTool genv name args =
        ({ content := [{ type := "text", text := "Error: Unknown GCP tool: " ++ name }],
           isError := some true }, [])) := by
  constructor
  · intro h1 h2
    refine ⟨?_, ?_, ?_⟩
    · simp [dispatchToolCall, h1, h2]
    · simp [httpPostTool, h1, h2]
    · show listContainsChar ("Unknown tool: " ++ name).data name.data = true
      rw [String.data_append]
      exact listContainsChar_append_self _ _
  · intro h1 h2 h3 h4 h5 h6 h7 h8 h9 h10 h11
    unfold GcpTools.handleTool
    rw [if_neg h1, if_neg h2, if_neg h3, if_neg h4, if_neg h5, if_neg h6, if_neg h7,
      if_neg h8, if_neg h9, if_neg h10, if_neg h11]
    rfl

/-- Witness for the amended C3 at the prefix-less `"foo_tool"` and the
`gcp_`-prefixed but unknown `"gcp_bogus"`. -/
theorem unknown_tool_error_escapes_witness :
    dispatchToolCall gcpEnvEx azureEnvEx "foo_tool" [] = Except.error "Unknown tool: foo_tool" ∧
    GcpTools.handleTool gcpEnvEx "gcp_bogus" [] =
      ({ content := [{ type := "text", text := "Error: Unknown GCP tool: gcp_bogus" }],
         isError := some true }, []) := by
  refine ⟨((unknown_tool_error_escapes "foo_tool" [] gcpEnvEx azureEnvEx).1
    (by decide) (by decide)).1, ?_⟩
  exact (unknown_tool_error_escapes "gcp_bogus" [] gcpEnvEx azureEnvEx).2
    (by decide) (by decide) (by decide) (by decide) (by decide) (by decide) (by decide)
    (by decide) (by decide) (by decide) (by decide)

/-- C4 counterexample: with the supplied scope identifier `""` (falsy in JS),
the invocation carries no scoping suffix, refuting "suffixed exactly when a
scope identifier is supplied". -/
theorem scope_flag_counterexample :
    gcpFullCommand "compute instances list" (some "") = "gcloud compute instances list" ∧
    azureFullCommand "vm list" (some "") = "az vm list" ∧
    (executeGcpCommand okProc "compute instances list" (some "")).2 =
      ["gcloud compute instances list"] ∧
    ¬ gcpFullCommand "compute instances list" (some "") =
        "gcloud compute instances list --project=" := by
  refine ⟨rfl, rfl, by decide, by decide⟩

/-- C4 amended: for every command accepted by the Validator, the spawned
invocation is exactly the provider CLI name plus a space plus the raw command
text, suffixed with `" --project=" + scopeId` (GCP) or
`" --subscription " + scopeId` (Azure) exactly when a *non-empty* scope
identifier is supplied, and textually unmodified otherwise. -/
theorem invocation_passthrough (command : String) (scopeId : Option String)
    (proc : String → ProcOutcome) :
    ((validateGcpCommand command).valid = true →
      (executeGcpCommand proc command scopeId).2 = [gcpFullCommand command scopeId]) ∧
    ((validateAzureCommand command).valid = true →
      (executeAzureCommand proc command scopeId).2 = [azureFullCommand command scopeId]) ∧
    (∀ p, scopeId = some p → ¬ p = "" →
      gcpFullCommand command scopeId = "gcloud " ++ command ++ " --project=" ++ p ∧
      azureFullCommand command scopeId = "az " ++ command ++ " --subscription " ++ p) ∧
    ((scopeId = none ∨ scopeId = some "") →
      gcpFullCommand command scopeId = "gcloud " ++ command ∧
      azureFullCommand command scopeId = "az " ++ command) := by
  refine ⟨?_, ?_, ?_, ?_⟩
  · intro hv
    rw [executeGcpCommand_valid proc command scopeId hv]
  · intro hv
    rw [executeAzureCommand_valid proc command scopeId hv]
  · intro p hp hpne
    subst hp
    constructor
    · simp [gcpFullCommand, hpne]
    · simp [azureFullCommand, hpne]
  · rintro (h | h) <;> subst h <;> exact ⟨by simp [gcpFullCommand], by simp [azureFullCommand]⟩

/-- Witness for the amended C4 at `"compute instances list"` with project
`"p1"` (suffix appended) and at `"vm list"` with no subscription (unmodified). -/
theorem invocation_passthrough_witness :
    (executeGcpCommand okProc "compute instances list" (some "p1")).2 =
      ["gcloud compute instances list --project=p1"] ∧
    (executeAzureCommand okProc "vm list" none).2 = ["az vm list"] := by
  have h1 := invocation_passthrough "compute instances list" (some "p1") okProc
  have h2 := invocation_passthrough "vm list" none okProc
  refine ⟨?_, ?_⟩
  · rw [h1.1 (by decide), (h1.2.2.1 "p1" rfl (by decide)).1]
    rfl
  · rw [h2.2.1 (by decide), (h2.2.2.2 (Or.inl rfl)).2]
    rfl

/-- The blob enumeration loop consumes exactly the first `(maxResults - count)`
items of the backing enumeration. -/
theorem azureListBlobsLoop_eq (mr : Int) (backing : List BlobItem) (c : Int) :
    azureListBlobsLoop mr backing c = (backing.take ((mr - c).toNat)).map blobEntryOfItem := by
  induction backing generalizing c with
  | nil => simp [azureListBlobsLoop]
  | cons b rest ih =>
    by_cases h : c ≥ mr
    · have h0 : (mr - c).toNat = 0 := by omega
      simp [azureListBlobsLoop, h, h0]
    · have hsucc : (mr - c).toNat = (mr - (c + 1)).toNat + 1 := by omega
      simp only [azureListBlobsLoop, if_neg h, hsucc, List.take_succ_cons, List.map_cons]
      rw [ih]

/-- C5 counterexample: `azure_list_containers` applies no result cap — with a
backing collection of 101 containers (more than the claimed default cap of
100) the handler returns all 101 entries. -/
theorem listing_cap_counterexample :
    (azureListContainersCollected (List.replicate 101 containerEx)).length = 101 ∧
    ¬ ((azureListContainersCollected (List.replicate 101 containerEx)).length ≤ 100) ∧
    (AzureTools.handleListContainers
        { azureEnvEx with listContainers := fun _ => Except.ok (List.replicate 101 containerEx) }
        [("accountName", JsValue.str "acct")]).1 =
      Except.ok
        { content :=
            [{ type := "text",
               text := stringifyContainers
                 (azureListContainersCollected (List.replicate 101 containerEx)) }],
          isError := none } := by
  refine ⟨by decide, by decide, rfl⟩

/-- C5 amended: the blob listing (`azure_list_blobs`) returns at most
`maxResults` entries, the cap being applied during enumeration (the loop
consumes only the first `maxResults` items of the backing enumeration) with
100 as the default when no `maxResults` argument is supplied, and the object
listing (`gcp_list_objects`) passes `maxResults` (default 100) and the prefix
filter through to the backing `getFiles` enumeration; the container listing
(and the other collection listings) apply no cap and return one entry per
element of the backing collection. -/
theorem listing_cap_amended :
    (∀ (backing : List BlobItem) (mr : Int),
      azureListBlobsCollected backing mr = (backing.take mr.toNat).map blobEntryOfItem ∧
      (azureListBlobsCollected backing mr).length ≤ mr.toNat) ∧
    (∀ (env : AzureEnv) (args : Args) (a cn : String) (backing : List BlobItem),
      getStrArg args "accountName" = some a → ¬ a = "" →
      getStrArg args "containerName" = some cn → ¬ cn = "" →
      getNumArg args "maxResults" = none → getStrArg args "prefix" = none →
      env.listBlobsFlat a cn "" = Except.ok backing →
      (AzureTools.handleListBlobs env args).1 =
        Except.ok
          { content :=
              [{ type := "text", text := stringifyBlobs (azureListBlobsCollected backing 100) }],
            isError := none }) ∧
    (∀ (genv : GcpEnv) (args : Args) (bn : String),
      genv.storageInit = true → getStrArg args "bucketName" = some bn → ¬ bn = "" →
      (GcpTools.handleListObjects genv args).2 =
        [ExtEvent.gcs (StorageCall.getFiles bn (jsOrStr (getStrArg args "prefix") "")
          (jsOrInt (getNumArg args "maxResults") 100))]) ∧
    (∀ backing : List ContainerItem,
      azureListContainersCollected backing = backing.map containerEntryOfItem) := by
  refine ⟨?_, ?_, ?_, ?_⟩
  · intro backing mr
    have h := azureListBlobsLoop_eq mr backing 0
    rw [Int.sub_zero] at h
    refine ⟨h, ?_⟩
    rw [show azureListBlobsCollected backing mr = azureListBlobsLoop mr backing 0 from rfl, h]
    simp [List.length_take]
  · intro env args a cn backing ha ha' hcn hcn' hmr hpfx hbl
    simp [AzureTools.handleListBlobs, ha, hcn, hmr, hpfx, ha', hcn', jsTruthyOptStr,
      jsOrStr, jsOrInt, hbl]
  · intro genv args bn hinit hbn hbn'
    simp only [GcpTools.handleListObjects, hinit, hbn]
    simp [jsTruthyOptStr, hbn']
    cases hres : genv.getFiles bn (jsOrStr (getStrArg args "prefix") "")
        (jsOrInt (getNumArg args "maxResults") 100) <;> simp [hres]
  · intro backing
    induction backing with
    | nil => rfl
    | cons c rest ih => simp [azureListContainersCollected, ih]

/-- Witness for the amended C5: a two-blob backing with cap 1 yields at most
one entry; `gcp_list_objects` with no `maxResults` argument passes 100 to the
backing enumeration; `azure_list_blobs` with defaults serializes the capped
collection. -/
theorem listing_cap_amended_witness :
    (azureListBlobsCollected
      [{ name := "b", size := 1, contentType := "t", lastModified := "lm", etag := "e" },
       { name := "b2", size := 2, contentType := "t", lastModified := "lm", etag := "e" }]
      1).length ≤ 1 ∧
    (GcpTools.handleListObjects gcpEnvEx [("bucketName", JsValue.str "bkt")]).2 =
      [ExtEvent.gcs (StorageCall.getFiles "bkt" "" 100)] ∧
    (AzureTools.handleListBlobs
        { azureEnvEx with listBlobsFlat := fun _ _ _ => Except.ok [] }
        [("accountName", JsValue.str "acct"), ("containerName", JsValue.str "c1")]).1 =
      Except.ok
        { content := [{ type := "text", text := stringifyBlobs (azureListBlobsCollected [] 100) }],
          isError := none } := by
  refine ⟨?_, ?_, ?_⟩
  · exact (listing_cap_amended.1
      [{ name := "b", size := 1, contentType := "t", lastModified := "lm", etag := "e" },
       { name := "b2", size := 2, contentType := "t", lastModified := "lm", etag := "e" }] 1).2
  · have h := listing_cap_amended.2.2.1 gcpEnvEx [("bucketName", JsValue.str "bkt")] "bkt"
      rfl rfl (by decide)
    rw [h]
    rfl
  · exact listing_cap_amended.2.1
      { azureEnvEx with listBlobsFlat := fun _ _ _ => Except.ok [] }
      [("accountName", JsValue.str "acct"), ("containerName", JsValue.str "c1")]
      "acct" "c1" [] rfl (by decide) rfl (by decide) rfl rfl rfl

/-- C6: with both `machineType` and `labels` supplied, `handleModifyGceInstance`
runs the machine-type step and then the label step sequentially (the spawn
trace is exactly the two step invocations in order, with no further — and in
particular no rollback — command, whatever the step results are), collects one
result per step, labels the combined output by step index
(`Operation 1:` / `Operation 2:`), and reports `isError` true iff some step's
exit code is non-zero. -/
theorem modify_instance_sequential_steps
    (env : GcpEnv) (args : Args) (i z mt : String) (lbls : List (String × String))
    (r1 r2 : CommandResult)
    (hi : getStrArg args "instance" = some i) (hi' : ¬ i = "")
    (hz : getStrArg args "zone" = some z) (hz' : ¬ z = "")
    (hmt : getStrArg args "machineType" = some mt) (hmt' : ¬ mt = "")
    (hl : getRecordArg args "labels" = some lbls)
    (hv1 : (validateGcpCommand ("compute instances set-machine-type " ++ i ++ " --zone=" ++ z ++
      " --machine-type=" ++ mt)).valid = true)
    (hv2 : (validateGcpCommand ("compute instances add-labels " ++ i ++ " --zone=" ++ z ++
      " --labels=" ++
      String.intercalate "," (lbls.map (fun kv => kv.1 ++ "=" ++ kv.2)))).valid = true)
    (hr1 : r1 = commandResultOfOutcome (env.proc (gcpFullCommand
      ("compute instances set-machine-type " ++ i ++ " --zone=" ++ z ++ " --machine-type=" ++ mt)
      (getStrArg args "projectId"))))
    (hr2 : r2 = commandResultOfOutcome (env.proc (gcpFullCommand
      ("compute instances add-labels " ++ i ++ " --zone=" ++ z ++ " --labels=" ++
        String.intercalate "," (lbls.map (fun kv => kv.1 ++ "=" ++ kv.2)))
      (getStrArg args "projectId")))) :
    GcpTools.handleModifyGceInstance env args =
      (Except.ok
        { content :=
            [{ type := "text",
               text := String.intercalate "\n\n" ([r1, r2].enum.map (fun p =>
                 "Operation " ++ toString (p.1 + 1) ++ ":\n" ++ p.2.stdout ++ "\n" ++ p.2.stderr)) }],
          isError := some ([r1, r2].any (fun r => !(r.exitCode = 0))) },
       [ExtEvent.spawn (gcpFullCommand
          ("compute instances set-machine-type " ++ i ++ " --zone=" ++ z ++ " --machine-type=" ++ mt)
          (getStrArg args "projectId")),
        ExtEvent.spawn (gcpFullCommand
          ("compute instances add-labels " ++ i ++ " --zone=" ++ z ++ " --labels=" ++
            String.intercalate "," (lbls.map (fun kv => kv.1 ++ "=" ++ kv.2)))
          (getStrArg args "projectId"))]) ∧
    (([r1, r2].any (fun r => !(r.exitCode = 0))) = false ↔
      (r1.exitCode = 0 ∧ r2.exitCode = 0)) := by
  constructor
  · subst hr1
    subst hr2
    unfold GcpTools.handleModifyGceInstance
    simp only [hi, hz, hmt, hl, Option.getD_some]
    simp only [jsTruthyOptStr, hi', hz', hmt', decide_False, Bool.not_false, Bool.and_self,
      Bool.not_true, if_true, if_false, ite_true, ite_false]
    simp only [runGcpStep_ok env
      ("compute instances set-machine-type " ++ i ++ " --zone=" ++ z ++ " --machine-type=" ++ mt)
      (getStrArg args "projectId") hv1,
      runGcpStep_ok env
      ("compute instances add-labels " ++ i ++ " --zone=" ++ z ++ " --labels=" ++
        String.intercalate "," (lbls.map (fun kv => kv.1 ++ "=" ++ kv.2)))
      (getStrArg args "projectId") hv2]
    rw [hbind_ok]
    dsimp only [hpure]
    rw [List.append_nil, hbind_ok]
    rw [hbind_ok]
    dsimp only [hpure]
    rw [List.append_nil, hbind_ok]
    dsimp only [hpure]
    simp only [List.singleton_append, List.length_cons, List.length_nil, List.append_nil,
      List.nil_append, List.cons_append]
    rfl
  · simp only [List.any_cons, List.any_nil, Bool.or_false, Bool.or_eq_false_iff,
      Bool.not_eq_false', decide_eq_true_eq]

/-- Witness for C6: modifying machine type and labels of `vm1` with an
always-succeeding process runs both steps in order, labels the output by step
index, and reports `isError: false`. -/
theorem modify_instance_sequential_steps_witness :
    GcpTools.handleModifyGceInstance gcpEnvEx
      [("instance", JsValue.str "vm1"), ("zone", JsValue.str "z1"),
       ("machineType", JsValue.str "n1-standard-2"),
       ("labels", JsValue.record [("env1", "prod")])] =
      (Except.ok
        { content := [{ type := "text", text := "Operation 1:\nout\n\n\nOperation 2:\nout\n" }],
          isError := some false },
       [ExtEvent.spawn
          "gcloud compute instances set-machine-type vm1 --zone=z1 --machine-type=n1-standard-2",
        ExtEvent.spawn "gcloud compute instances add-labels vm1 --zone=z1 --labels=env1=prod"]) := by
  have h := modify_instance_sequential_steps gcpEnvEx
    [("instance", JsValue.str "vm1"), ("zone", JsValue.str "z1"),
     ("machineType", JsValue.str "n1-standard-2"),
     ("labels", JsValue.record [("env1", "prod")])]
    "vm1" "z1" "n1-standard-2" [("env1", "prod")]
    { stdout := "out", stderr := "", exitCode := 0 }
    { stdout := "out", stderr := "", exitCode := 0 }
    rfl (by decide) rfl (by decide) rfl (by decide) rfl (by decide) (by decide) rfl rfl
  rw [h.1]
  rfl

/-- C9: dispatching `gcp_list_objects` through the GCP router with an argument
mapping lacking `bucketName` (while the storage client is initialized) yields
the uniform envelope with `isError: true` and the message
`Error: Bucket name is required` — which mentions `Bucket name` — and an empty
external-call trace: the argument error is raised before any storage call. -/
theorem list_objects_missing_bucket (env : GcpEnv) (args : Args)
    (hinit : env.storageInit = true)
    (hb : getStrArg args "bucketName" = none) :
    GcpTools.handleTool env "gcp_list_objects" args =
      ({ content := [{ type := "text", text := "Error: Bucket name is required" }],
         isError := some true }, []) ∧
    jsIncludes "Error: Bucket name is required" "Bucket name" = true := by
  constructor
  · unfold GcpTools.handleTool
    rw [if_neg (by decide), if_neg (by decide), if_pos rfl]
    unfold GcpTools.handleListObjects
    rw [hinit, hb]
    rfl
  · decide

/-- Witness for C9 with the empty argument mapping. -/
theorem list_objects_missing_bucket_witness :
    GcpTools.handleTool gcpEnvEx "gcp_list_objects" [] =
      ({ content := [{ type := "text", text := "Error: Bucket name is required" }],
         isError := some true }, []) :=
  (list_objects_missing_bucket gcpEnvEx [] rfl rfl).1

/-- C10: dispatching `gcp_modify_gce_instance` with `instance` and `zone`
present but both `machineType` and `labels` absent yields the uniform envelope
with `isError: true` and message containing
`Either machineType or labels must be provided`, and the executor is never
called (empty spawn trace). -/
theorem modify_instance_requires_modification (env : GcpEnv) (args : Args)
    (i z : String)
    (hi : getStrArg args "instance" = some i) (hi' : ¬ i = "")
    (hz : getStrArg args "zone" = some z) (hz' : ¬ z = "")
    (hmt : getStrArg args "machineType" = none)
    (hl : getRecordArg args "labels" = none) :
    GcpTools.handleTool env "gcp_modify_gce_instance" args =
      ({ content :=
           [{ type := "text",
              text := "Error: Either machineType or labels must be provided" }],
         isError := some true }, []) ∧
    jsIncludes "Error: Either machineType or labels must be provided"
      "Either machineType or labels must be provided" = true := by
  constructor
  · unfold GcpTools.handleTool
    rw [if_neg (by decide), if_neg (by decide), if_neg (by decide), if_neg (by decide),
      if_neg (by decide), if_neg (by decide), if_neg (by decide), if_neg (by decide),
      if_neg (by decide), if_neg (by decide), if_pos rfl]
    unfold GcpTools.handleModifyGceInstance
    simp only [hi, hz, hmt, hl, Option.getD_some]
    simp only [jsTruthyOptStr, hi', hz', decide_False, Bool.not_false, Bool.and_self,
      Bool.not_true, if_true, if_false, ite_true, ite_false]
    rfl
  · decide

/-- Witness for C10 with only `instance` and `zone` supplied. -/
theorem modify_instance_requires_modification_witness :
    GcpTools.handleTool gcpEnvEx "gcp_modify_gce_instance"
      [("instance", JsValue.str "vm1"), ("zone", JsValue.str "z1")] =
      ({ content :=
           [{ type := "text",
              text := "Error: Either machineType or labels must be provided" }],
         isError := some true }, []) :=
  (modify_instance_requires_modification gcpEnvEx
    [("instance", JsValue.str "vm1"), ("zone", JsValue.str "z1")]
    "vm1" "z1" rfl (by decide) rfl (by decide) rfl rfl).1
